import Mathlib

/-!
Shallow embedding of the StorePilot calculation engine
(`src/engine/calculations.py`, `src/engine/feasibility.py`, and the
module-level FTE daypart allocation in `src/app.py`) over exact rational
arithmetic.  Python floats are modelled as `ℚ`, Python `None` as
`Option.none`, and the local variables of `calculate_financials` as one
definition each over an input record `FinInputs`.
-/

namespace StorePilot

/-- One demand segment ("daypart"), mirroring the `DaypartInput` dataclass. -/
structure DaypartInput where
  key : String
  label : String
  orders_per_day : ℚ
  ticket_avg : ℚ
  start_time : Option String := none
  end_time : Option String := none

/-- ASCII lowercase of one character (uppercase letters shifted by 32). -/
def char_lower (c : Char) : Char :=
  if c.isUpper then Char.ofNat (c.toNat + 32) else c

/-- Python `str.lower()` on the ASCII mode strings this engine compares
(`"pct"`, `"eur"`, user-supplied variants). -/
def str_lower (s : String) : String :=
  ⟨s.data.map char_lower⟩

/-- Python `str.strip()`: drop whitespace from both ends. -/
def trim_chars (l : List Char) : List Char :=
  ((l.dropWhile Char.isWhitespace).reverse.dropWhile Char.isWhitespace).reverse

/-- Value of a decimal digit character, `none` on non-digits.  Models the
digits-only core of Python `int` applied to the two-character slices of an
`HH:MM` string. -/
def digit_val (c : Char) : Option ℕ :=
  if c.isDigit then some (c.toNat - 48) else none

/-- Embeds `_parse_hhmm`: empty strings are rejected, the stripped string must
be five characters `HH:MM`, and the parsed pair is returned only when
`hh ≤ 23` and `mm ≤ 59`. -/
def parse_hhmm (s : String) : Option (ℕ × ℕ) :=
  if s = "" then none
  else
    match trim_chars s.data with
    | [h1, h2, c, m1, m2] =>
      if c = ':' then
        match digit_val h1, digit_val h2, digit_val m1, digit_val m2 with
        | some a, some b, some d, some e =>
          let hh := 10 * a + b
          let mm := 10 * d + e
          if hh ≤ 23 ∧ mm ≤ 59 then some (hh, mm) else none
        | _, _, _, _ => none
      else none
    | _ => none

/-- Embeds `_hours_between`: both endpoints must parse, a zero-minute span is
rejected, an overnight span (end before start) gets 24 hours added, and the
result is the span in hours. -/
def hours_between (os oe : Option String) : Option ℚ :=
  match (match os with | some s => parse_hhmm s | none => none),
        (match oe with | some s => parse_hhmm s | none => none) with
  | some p, some q =>
    let smin : ℤ := (p.1 : ℤ) * 60 + (p.2 : ℤ)
    let emin : ℤ := (q.1 : ℤ) * 60 + (q.2 : ℤ)
    if emin = smin then none
    else
      let emin2 := if emin < smin then emin + 24 * 60 else emin
      some (((emin2 - smin : ℤ) : ℚ) / 60)
  | _, _ => none

/-- Python truthiness of an optional string (`None` and `""` are falsy). -/
def truthy_str : Option String → Bool
  | some s => s ≠ ""
  | none => false

/-- The per-daypart hour computation in `calculate_financials`:
`_hours_between(dp.start_time, dp.end_time) if (dp.start_time and dp.end_time) else None`. -/
def daypart_hours (dp : DaypartInput) : Option ℚ :=
  if truthy_str dp.start_time ∧ truthy_str dp.end_time then
    hours_between dp.start_time dp.end_time
  else none

/-- The list of hour durations the engine accumulates into `total_hours`:
only dayparts whose `daypart_hours` is present and strictly positive
contribute. -/
def valid_hours (dps : List DaypartInput) : List ℚ :=
  dps.filterMap fun dp =>
    match daypart_hours dp with
    | some h => if 0 < h then some h else none
    | none => none

/-- Python `mode or "pct"`: the empty string is falsy and defaults. -/
def or_default (mode : String) : String := if mode = "" then "pct" else mode

/-- Embeds `_cost_amount`: a line is resolved as fixed exactly when its mode
lowercases to `"eur"`; every other mode resolves as percent-of-revenue. -/
def cost_amount (revenue_month : ℚ) (mode : String) (pct eur_month : ℚ) : ℚ :=
  if str_lower (or_default mode) = "eur" then eur_month else revenue_month * pct

/-- The break-even classifier applied to one cost line's mode
(`(mode or "pct").lower() == "pct"` in the source loop). -/
def line_is_variable (mode : String) : Bool :=
  str_lower (or_default mode) == "pct"

/-- The full keyword-argument list of `calculate_financials`. -/
structure FinInputs where
  dayparts : List DaypartInput
  open_days_per_month : ℤ
  cogs_mode : String
  labor_mode : String
  opex_mode : String
  marketing_mode : String
  fee_mode : String
  cogs_pct : ℚ
  labor_pct : ℚ
  opex_pct : ℚ
  marketing_pct : ℚ
  fee_pct : ℚ
  cogs_eur : ℚ
  labor_eur : ℚ
  opex_eur : ℚ
  marketing_eur : ℚ
  fee_eur : ℚ
  rent_fixed_month : ℚ
  service_charges_month : ℚ
  capex : ℚ
  deposits : ℚ
  immobilizations : ℚ
  guarantees : ℚ
  quarter_weights : Option (List ℚ) := none
  ramp_up_months : ℤ := 0
  ramp_up_floor : ℚ := 65 / 100

/-- `orders_day`: per-segment orders clamped at 0 and summed. -/
def orders_day (i : FinInputs) : ℚ :=
  (i.dayparts.map fun dp => max 0 dp.orders_per_day).sum

/-- `revenue_day`: per-segment `max(0, orders) * max(0, ticket)` summed. -/
def revenue_day (i : FinInputs) : ℚ :=
  (i.dayparts.map fun dp => max 0 dp.orders_per_day * max 0 dp.ticket_avg).sum

/-- `revenue_month = revenue_day * open_days_per_month`. -/
def revenue_month (i : FinInputs) : ℚ :=
  revenue_day i * (i.open_days_per_month : ℚ)

/-- `revenue_annual_runrate = revenue_month * 12`. -/
def revenue_annual_runrate (i : FinInputs) : ℚ :=
  revenue_month i * 12

/-- `total_hours`: sum of the valid per-daypart durations. -/
def total_hours (i : FinInputs) : ℚ :=
  (valid_hours i.dayparts).sum

/-- `hours_day_total = total_hours if total_hours > 0 else None`. -/
def hours_day_total (i : FinInputs) : Option ℚ :=
  if 0 < total_hours i then some (total_hours i) else none

/-- `orders_per_hour = orders_day / hours_day_total if hours_day_total else None`. -/
def orders_per_hour (i : FinInputs) : Option ℚ :=
  (hours_day_total i).map fun h => orders_day i / h

/-- `revenue_per_hour = revenue_day / hours_day_total if hours_day_total else None`. -/
def revenue_per_hour (i : FinInputs) : Option ℚ :=
  (hours_day_total i).map fun h => revenue_day i / h

/-- The resolved monthly COGS line. -/
def cogs_month (i : FinInputs) : ℚ :=
  cost_amount (revenue_month i) i.cogs_mode i.cogs_pct i.cogs_eur

/-- The resolved monthly labor line. -/
def labor_month (i : FinInputs) : ℚ :=
  cost_amount (revenue_month i) i.labor_mode i.labor_pct i.labor_eur

/-- The resolved monthly opex line. -/
def opex_month (i : FinInputs) : ℚ :=
  cost_amount (revenue_month i) i.opex_mode i.opex_pct i.opex_eur

/-- The resolved monthly marketing line. -/
def marketing_month (i : FinInputs) : ℚ :=
  cost_amount (revenue_month i) i.marketing_mode i.marketing_pct i.marketing_eur

/-- The resolved monthly fee line. -/
def fee_month (i : FinInputs) : ℚ :=
  cost_amount (revenue_month i) i.fee_mode i.fee_pct i.fee_eur

/-- `occupancy_month = rent_fixed_month + service_charges_month`. -/
def occupancy_month (i : FinInputs) : ℚ :=
  i.rent_fixed_month + i.service_charges_month

/-- `ebitda_month = revenue_month - (five resolved lines + occupancy_month)`. -/
def ebitda_month (i : FinInputs) : ℚ :=
  revenue_month i -
    (cogs_month i + labor_month i + opex_month i + marketing_month i +
      fee_month i + occupancy_month i)

/-- `ebitda_pct_month`, reported as 0 on non-positive revenue. -/
def ebitda_pct_month (i : FinInputs) : ℚ :=
  if 0 < revenue_month i then ebitda_month i / revenue_month i else 0

/-- Annual run-rate COGS (`cogs_month * 12`). -/
def cogs_annual (i : FinInputs) : ℚ := cogs_month i * 12

/-- Annual run-rate labor (`labor_month * 12`). -/
def labor_annual (i : FinInputs) : ℚ := labor_month i * 12

/-- Annual run-rate opex (`opex_month * 12`). -/
def opex_annual (i : FinInputs) : ℚ := opex_month i * 12

/-- Annual run-rate marketing (`marketing_month * 12`). -/
def marketing_annual (i : FinInputs) : ℚ := marketing_month i * 12

/-- Annual run-rate fee (`fee_month * 12`). -/
def fee_annual (i : FinInputs) : ℚ := fee_month i * 12

/-- Annual run-rate occupancy (`occupancy_month * 12`). -/
def occupancy_annual (i : FinInputs) : ℚ := occupancy_month i * 12

/-- Annual run-rate EBITDA (`ebitda_month * 12`). -/
def ebitda_annual (i : FinInputs) : ℚ := ebitda_month i * 12

/-- `ebitda_pct_annual`, reported as 0 on non-positive annual revenue. -/
def ebitda_pct_annual (i : FinInputs) : ℚ :=
  if 0 < revenue_annual_runrate i then ebitda_annual i / revenue_annual_runrate i else 0

/-- `prime_cost_pct = (cogs_annual + labor_annual) / revenue_annual`, 0 on
non-positive revenue. -/
def prime_cost_pct (i : FinInputs) : ℚ :=
  if 0 < revenue_annual_runrate i then
    (cogs_annual i + labor_annual i) / revenue_annual_runrate i
  else 0

/-- `occupancy_pct = occupancy_annual / revenue_annual`, 0 on non-positive
revenue. -/
def occupancy_pct (i : FinInputs) : ℚ :=
  if 0 < revenue_annual_runrate i then occupancy_annual i / revenue_annual_runrate i else 0

/-- `controllable_costs_pct`, 0 on non-positive revenue. -/
def controllable_costs_pct (i : FinInputs) : ℚ :=
  if 0 < revenue_annual_runrate i then
    (cogs_annual i + labor_annual i + opex_annual i + marketing_annual i + fee_annual i) /
      revenue_annual_runrate i
  else 0

/-- `cash_invested = capex + deposits + immobilizations + guarantees`. -/
def cash_invested (i : FinInputs) : ℚ :=
  i.capex + i.deposits + i.immobilizations + i.guarantees

/-- `roi_annual`, `None` unless `cash_invested > 0`. -/
def roi_annual (i : FinInputs) : Option ℚ :=
  if 0 < cash_invested i then some (ebitda_annual i / cash_invested i) else none

/-- `payback_months`, `None` unless `cash_invested > 0` and `ebitda_month > 0`. -/
def payback_months (i : FinInputs) : Option ℚ :=
  if 0 < cash_invested i ∧ 0 < ebitda_month i then
    some (cash_invested i / ebitda_month i)
  else none

/-- `variable_rate`: the source loop adds each line's `pct` when the mode
lowercases to `"pct"` (after the `or "pct"` default), unrolled over the five
explicit lines. -/
def variable_rate (i : FinInputs) : ℚ :=
  (if line_is_variable i.cogs_mode then i.cogs_pct else 0) +
  (if line_is_variable i.labor_mode then i.labor_pct else 0) +
  (if line_is_variable i.opex_mode then i.opex_pct else 0) +
  (if line_is_variable i.marketing_mode then i.marketing_pct else 0) +
  (if line_is_variable i.fee_mode then i.fee_pct else 0)

/-- `fixed_month_extra`: the source loop adds each line's `eur` when the mode
does not lowercase to `"pct"`. -/
def fixed_month_extra (i : FinInputs) : ℚ :=
  (if line_is_variable i.cogs_mode then 0 else i.cogs_eur) +
  (if line_is_variable i.labor_mode then 0 else i.labor_eur) +
  (if line_is_variable i.opex_mode then 0 else i.opex_eur) +
  (if line_is_variable i.marketing_mode then 0 else i.marketing_eur) +
  (if line_is_variable i.fee_mode then 0 else i.fee_eur)

/-- `fixed_costs_month = occupancy_month + fixed_month_extra`. -/
def fixed_costs_month (i : FinInputs) : ℚ :=
  occupancy_month i + fixed_month_extra i

/-- `contribution_margin = 1 - variable_rate`. -/
def contribution_margin (i : FinInputs) : ℚ :=
  1 - variable_rate i

/-- `break_even_revenue_month`, defined only when the contribution margin and
the fixed monthly costs are both positive. -/
def break_even_revenue_month (i : FinInputs) : Option ℚ :=
  if 0 < contribution_margin i ∧ 0 < fixed_costs_month i then
    some (fixed_costs_month i / contribution_margin i)
  else none

/-- `break_even_revenue_annual = break_even_revenue_month * 12` when defined. -/
def break_even_revenue_annual (i : FinInputs) : Option ℚ :=
  (break_even_revenue_month i).map fun r => r * 12

/-- `blended_ticket = revenue_day / orders_day if orders_day > 0 else None`. -/
def blended_ticket (i : FinInputs) : Option ℚ :=
  if 0 < orders_day i then some (revenue_day i / orders_day i) else none

/-- `break_even_orders_day`: requires a defined break-even revenue, a defined
and truthy positive blended ticket, and positive open days. -/
def break_even_orders_day (i : FinInputs) : Option ℚ :=
  match break_even_revenue_month i, blended_ticket i with
  | some bem, some bt =>
    if 0 < bt ∧ 0 < i.open_days_per_month then
      some (bem / (bt * (i.open_days_per_month : ℚ)))
    else none
  | _, _ => none

/-- The chart payload built when break-even is defined. -/
structure BreakEvenCurve where
  revenue_annual : List ℚ
  total_costs_annual : List ℚ
  ebitda_annual : List ℚ
  break_even_revenue_annual : Option ℚ
  fixed_costs_annual : ℚ
  variable_rate : ℚ
  contribution_margin : ℚ

/-- `break_even_curve`: produced exactly under the same guard as the
break-even revenue (`contribution_margin > 0 and fixed_costs_month > 0`). -/
def break_even_curve (i : FinInputs) : Option BreakEvenCurve :=
  if 0 < contribution_margin i ∧ 0 < fixed_costs_month i then
    let fca := fixed_costs_month i * 12
    let x_max :=
      max (revenue_annual_runrate i * (14 / 10))
        (max (((break_even_revenue_annual i).getD 0) * (16 / 10)) 150000)
    let xs := (List.range 61).map fun n => (n : ℚ) * (x_max / 60)
    let tcs := xs.map fun x => fca + (1 - contribution_margin i) * x
    some
      { revenue_annual := xs
        total_costs_annual := tcs
        ebitda_annual := (xs.zip tcs).map fun p => p.1 - p.2
        break_even_revenue_annual := break_even_revenue_annual i
        fixed_costs_annual := fca
        variable_rate := 1 - contribution_margin i
        contribution_margin := contribution_margin i }
  else none

/-- `ramp_up_months` clamped into `[0, 12]` (`int(max(0, min(12, m)))`). -/
def ramp_up_months_clamped (i : FinInputs) : ℕ :=
  (max 0 (min 12 i.ramp_up_months)).toNat

/-- `ramp_up_floor` clamped into `[0, 1]`. -/
def ramp_up_floor_clamped (i : FinInputs) : ℚ :=
  max 0 (min 1 i.ramp_up_floor)

/-- The 12 monthly weights: normalized quarter weights spread evenly over
their three months when four weights with positive sum are supplied,
otherwise twelve equal weights. -/
def month_weights (i : FinInputs) : List ℚ :=
  match i.quarter_weights with
  | some qw =>
    if qw ≠ [] ∧ qw.length = 4 ∧ 0 < qw.sum then
      ((qw.map fun q => q / qw.sum).map fun q => [q / 3, q / 3, q / 3]).flatten
    else List.replicate 12 (1 / 12)
  | none => List.replicate 12 (1 / 12)

/-- The ramp factor for month `m` (0-indexed): 1 once the ramp is over, 1 for
a one-month ramp, and otherwise the linear interpolation from the floor at
month 0 to 1 at month `rum - 1`. -/
def ramp_factor (rum : ℕ) (fl : ℚ) (m : ℕ) : ℚ :=
  if m < rum then
    if rum = 1 then 1 else fl + (1 - fl) * ((m : ℚ) / ((rum : ℚ) - 1))
  else 1

/-- The `factors` array of `calculate_financials`. -/
def factors (i : FinInputs) : List ℚ :=
  (List.range 12).map (ramp_factor (ramp_up_months_clamped i) (ramp_up_floor_clamped i))

/-- `mw_no_renorm[m] = month_weights[m] * factors[m]` (not renormalized). -/
def mw_no_renorm (i : FinInputs) : List ℚ :=
  ((month_weights i).zip (factors i)).map fun p => p.1 * p.2

/-- `revenue_annual_y1 = revenue_annual_runrate * sum(mw_no_renorm)`. -/
def revenue_annual_y1 (i : FinInputs) : ℚ :=
  revenue_annual_runrate i * (mw_no_renorm i).sum

/-- Embeds `_annual_cost_y1`: percent-mode lines are recomputed against the
(clamped) Y1 revenue, every other line is `max(0, eur_month) * 12`. -/
def annual_cost_y1 (mode : String) (pct eur_month y1_revenue : ℚ) : ℚ :=
  if line_is_variable mode then max 0 pct * max 0 y1_revenue
  else max 0 eur_month * 12

/-- Y1 annual COGS. -/
def cogs_annual_y1 (i : FinInputs) : ℚ :=
  annual_cost_y1 i.cogs_mode i.cogs_pct i.cogs_eur (revenue_annual_y1 i)

/-- Y1 annual labor. -/
def labor_annual_y1 (i : FinInputs) : ℚ :=
  annual_cost_y1 i.labor_mode i.labor_pct i.labor_eur (revenue_annual_y1 i)

/-- Y1 annual opex. -/
def opex_annual_y1 (i : FinInputs) : ℚ :=
  annual_cost_y1 i.opex_mode i.opex_pct i.opex_eur (revenue_annual_y1 i)

/-- Y1 annual marketing. -/
def marketing_annual_y1 (i : FinInputs) : ℚ :=
  annual_cost_y1 i.marketing_mode i.marketing_pct i.marketing_eur (revenue_annual_y1 i)

/-- Y1 annual fee. -/
def fee_annual_y1 (i : FinInputs) : ℚ :=
  annual_cost_y1 i.fee_mode i.fee_pct i.fee_eur (revenue_annual_y1 i)

/-- `occupancy_annual_y1 = occupancy_month * 12` (flat, no seasonality). -/
def occupancy_annual_y1 (i : FinInputs) : ℚ :=
  occupancy_month i * 12

/-- Sum of the six Y1 annual cost figures. -/
def total_costs_annual_y1 (i : FinInputs) : ℚ :=
  cogs_annual_y1 i + labor_annual_y1 i + opex_annual_y1 i + marketing_annual_y1 i +
    fee_annual_y1 i + occupancy_annual_y1 i

/-- `ebitda_annual_y1 = revenue_annual_y1 - total_costs_annual_y1`. -/
def ebitda_annual_y1 (i : FinInputs) : ℚ :=
  revenue_annual_y1 i - total_costs_annual_y1 i

/-- `ebitda_pct_annual_y1`, 0 on non-positive Y1 revenue. -/
def ebitda_pct_annual_y1 (i : FinInputs) : ℚ :=
  if 0 < revenue_annual_y1 i then ebitda_annual_y1 i / revenue_annual_y1 i else 0

/-- `roi_annual_y1`, `None` unless `cash_invested > 0`. -/
def roi_annual_y1 (i : FinInputs) : Option ℚ :=
  if 0 < cash_invested i then some (ebitda_annual_y1 i / cash_invested i) else none

/-- `payback_months_y1 = cash_invested / (ebitda_annual_y1 / 12)` when
`cash_invested > 0` and `ebitda_annual_y1 > 0`, else `None`. -/
def payback_months_y1 (i : FinInputs) : Option ℚ :=
  if 0 < cash_invested i ∧ 0 < ebitda_annual_y1 i then
    some (cash_invested i / (ebitda_annual_y1 i / 12))
  else none

/-- Result of `evaluate_feasibility`. -/
structure FeasibilityResult where
  status : String
  reasons : List String

/-- The tiered EBITDA reason string (`src/engine/feasibility.py`). -/
def ebitda_reason (e : ℚ) : String :=
  if e < 8 / 100 then
    "EBITDA annuo (run-rate) < 8%: struttura economica fortemente sotto pressione."
  else if e < 12 / 100 then
    "EBITDA annuo (run-rate) tra 8% e 12%: marginalità borderline, necessaria ottimizzazione."
  else if e < 18 / 100 then
    "EBITDA annuo (run-rate) tra 12% e 18%: livello sostenibile per molti format."
  else
    "EBITDA annuo (run-rate) ≥ 18%: marginalità robusta."

/-- The tiered prime-cost reason string. -/
def prime_reason (p : ℚ) : String :=
  if p ≤ 55 / 100 then
    "Prime Cost ≤ 55%: struttura operativa molto efficiente."
  else if p ≤ 65 / 100 then
    "Prime Cost tra 55% e 65%: livello gestibile ma da monitorare."
  else
    "Prime Cost > 65%: rischio su food cost o produttività del personale."

/-- The tiered occupancy reason string. -/
def occupancy_reason (o : ℚ) : String :=
  if o ≤ 10 / 100 then
    "Occupancy ≤ 10%: incidenza affitto molto sostenibile."
  else if o ≤ 14 / 100 then
    "Occupancy tra 10% e 14%: livello accettabile."
  else
    "Occupancy > 14%: pressione elevata su affitto/oneri."

/-- Embeds `evaluate_feasibility`: one reason per criterion appended in order
(EBITDA, prime cost, occupancy), then the status chain. -/
def evaluate_feasibility (ebitda_pct prime_cost occupancy : ℚ) : FeasibilityResult :=
  { status :=
      if 15 / 100 ≤ ebitda_pct ∧ prime_cost ≤ 60 / 100 ∧ occupancy ≤ 12 / 100 then "GO"
      else if 10 / 100 ≤ ebitda_pct then "REVIEW"
      else "NO_GO"
    reasons := [ebitda_reason ebitda_pct, prime_reason prime_cost, occupancy_reason occupancy] }

/-- Per-segment monthly revenue in the FTE daypart allocation of `src/app.py`
(`max(0.0, orders_per_day * ticket_avg * open_days)`). -/
def seg_rev_month (od : ℤ) (dp : DaypartInput) : ℚ :=
  max 0 (dp.orders_per_day * dp.ticket_avg * (od : ℚ))

/-- `tot_month_rev`: total clamped monthly segment revenue. -/
def fte_total_rev (dps : List DaypartInput) (od : ℤ) : ℚ :=
  (dps.map (seg_rev_month od)).sum

/-- One segment's staffing share: revenue share of the total when the total is
positive, `1 / row_count` otherwise. -/
def fte_share (dps : List DaypartInput) (od : ℤ) (dp : DaypartInput) : ℚ :=
  if 0 < fte_total_rev dps od then seg_rev_month od dp / fte_total_rev dps od
  else 1 / (dps.length : ℚ)

/-- The list of staffing shares, one per segment. -/
def fte_shares (dps : List DaypartInput) (od : ℤ) : List ℚ :=
  dps.map (fte_share dps od)

/-- The allocated labor costs (`fte_labor_base_annual * share` per segment). -/
def fte_alloc_costs (base : ℚ) (dps : List DaypartInput) (od : ℤ) : List ℚ :=
  (fte_shares dps od).map fun s => base * s

/-- Per-line mismatch between the break-even decomposition and the cost
resolver: nonzero only for a line the resolver treats as percent but the
break-even loop treats as fixed. -/
def line_mismatch (mode : String) (pct eur rev : ℚ) : ℚ :=
  if line_is_variable mode = false ∧ str_lower (or_default mode) ≠ "eur" then
    eur - rev * pct
  else 0

/-- A baseline input: no segments, all cost lines in percent mode at 0, no
occupancy, no investment, no seasonality. -/
def base_input : FinInputs :=
  { dayparts := []
    open_days_per_month := 30
    cogs_mode := "pct", labor_mode := "pct", opex_mode := "pct"
    marketing_mode := "pct", fee_mode := "pct"
    cogs_pct := 0, labor_pct := 0, opex_pct := 0, marketing_pct := 0, fee_pct := 0
    cogs_eur := 0, labor_eur := 0, opex_eur := 0, marketing_eur := 0, fee_eur := 0
    rent_fixed_month := 0, service_charges_month := 0
    capex := 0, deposits := 0, immobilizations := 0, guarantees := 0 }

/-- A segment selling 100 orders/day at an average ticket of 10. -/
def dp_std : DaypartInput :=
  { key := "lunch", label := "Lunch", orders_per_day := 100, ticket_avg := 10 }

/-- Input with rent 100 and no segments: break-even revenue is defined but no
blended ticket exists. -/
def ce1_input : FinInputs :=
  { base_input with rent_fixed_month := 100 }

/-- Input whose COGS line is fixed-mode with a negative monthly amount. -/
def ce4_input : FinInputs :=
  { base_input with cogs_mode := "eur", cogs_eur := -5 }

/-- Input whose COGS line carries the unnormalized mode string `"percent"`,
with both its percent and fixed values at 0. -/
def ce10_input : FinInputs :=
  { base_input with cogs_mode := "percent", rent_fixed_month := 100 }

/-- Input with one standard segment and a positive investment. -/
def w6_input : FinInputs :=
  { base_input with dayparts := [dp_std], capex := 100 }

/-- Input whose COGS line is fixed-mode at 500 per month. -/
def w4_input : FinInputs :=
  { base_input with cogs_mode := "eur", cogs_eur := 500 }

/-- A segment open from 18:00 to 23:00. -/
def dp_time : DaypartInput :=
  { key := "dinner", label := "Dinner", orders_per_day := 50, ticket_avg := 20
    start_time := some "18:00", end_time := some "23:00" }

/-- Input with one timed segment. -/
def w8_input : FinInputs :=
  { base_input with dayparts := [dp_time] }

theorem or_default_of_ne {mode : String} (h : mode ≠ "") : or_default mode = mode :=
  if_neg h

theorem line_is_variable_iff (mode : String) :
    line_is_variable mode = true ↔ str_lower (or_default mode) = "pct" := by
  simp [line_is_variable]

theorem not_eur_of_variable {mode : String} (h : line_is_variable mode = true) :
    str_lower (or_default mode) ≠ "eur" := by
  rw [line_is_variable_iff] at h
  rw [h]
  decide

theorem cost_amount_of_eur {mode : String} (h : str_lower (or_default mode) = "eur")
    (rev pct eur : ℚ) : cost_amount rev mode pct eur = eur := by
  simp [cost_amount, h]

theorem cost_amount_of_not_eur {mode : String} (h : str_lower (or_default mode) ≠ "eur")
    (rev pct eur : ℚ) : cost_amount rev mode pct eur = rev * pct := by
  simp [cost_amount, h]

theorem parse_hhmm_le (s : String) (hh mm : ℕ) (h : parse_hhmm s = some (hh, mm)) :
    hh ≤ 23 ∧ mm ≤ 59 := by
  unfold parse_hhmm at h
  split at h
  · simp at h
  · split at h
    · split at h
      · split at h
        · dsimp only at h
          split at h
          · simp_all
          · simp at h
        · simp at h
      · simp at h
    · simp at h

theorem hours_between_pos {os oe : Option String} {h : ℚ}
    (hsome : hours_between os oe = some h) : 0 < h := by
  unfold hours_between at hsome
  split at hsome
  case _ p q hp hq =>
    obtain ⟨sp, hsp, hps⟩ : ∃ sp, os = some sp ∧ parse_hhmm sp = some p := by
      split at hp
      · exact ⟨_, rfl, hp⟩
      · exact absurd hp (by simp)
    obtain ⟨sq, hsq, hqs⟩ : ∃ sq, oe = some sq ∧ parse_hhmm sq = some q := by
      split at hq
      · exact ⟨_, rfl, hq⟩
      · exact absurd hq (by simp)
    have hpb := parse_hhmm_le sp p.1 p.2 (by rw [hps])
    have hqb := parse_hhmm_le sq q.1 q.2 (by rw [hqs])
    simp only at hsome
    split at hsome
    · exact absurd hsome (by simp)
    · rename_i hne
      rw [Option.some_inj] at hsome
      subst hsome
      apply div_pos _ (by norm_num)
      rw [show ((0 : ℚ) = ((0 : ℤ) : ℚ)) from by norm_num, Int.cast_lt]
      split
      · omega
      · omega
  case _ =>
    exact absurd hsome (by simp)

theorem daypart_hours_pos {dp : DaypartInput} {h : ℚ}
    (hsome : daypart_hours dp = some h) : 0 < h := by
  unfold daypart_hours at hsome
  split at hsome
  · exact hours_between_pos hsome
  · exact absurd hsome (by simp)

theorem sum_map_div (l : List ℚ) (c : ℚ) : (l.map fun x => x / c).sum = l.sum / c := by
  induction l with
  | nil => simp
  | cons a t ih => simp [ih, add_div]

theorem sum_map_mul_left (l : List ℚ) (c : ℚ) : (l.map fun x => c * x).sum = c * l.sum := by
  induction l with
  | nil => simp
  | cons a t ih => simp [ih, mul_add]

theorem sum_map_const {α : Type} (l : List α) (c : ℚ) :
    (l.map fun _ => c).sum = (l.length : ℚ) * c := by
  induction l with
  | nil => simp
  | cons a t ih => simp [ih, add_mul, add_comm]

/-- C3: for every input, the monthly accounting identity holds exactly:
EBITDA plus the five resolved monthly cost lines plus occupancy equals
monthly revenue. -/
theorem c3_monthly_accounting_identity (i : FinInputs) :
    ebitda_month i +
        (cogs_month i + labor_month i + opex_month i + marketing_month i + fee_month i) +
        occupancy_month i =
      revenue_month i := by
  unfold ebitda_month
  ring

/-- C2: the feasibility classifier is a pure function of the three ratios;
status is GO exactly on the three-threshold conjunction, otherwise REVIEW
exactly when EBITDA ≥ 10 percent, otherwise NO_GO; and the reasons list is
always exactly the three per-criterion strings in order (EBITDA, prime cost,
occupancy). -/
theorem c2_feasibility_classifier (e p o : ℚ) :
    ((evaluate_feasibility e p o).status = "GO" ↔
        (15 / 100 ≤ e ∧ p ≤ 60 / 100 ∧ o ≤ 12 / 100))
    ∧ ((evaluate_feasibility e p o).status = "REVIEW" ↔
        (¬(15 / 100 ≤ e ∧ p ≤ 60 / 100 ∧ o ≤ 12 / 100) ∧ 10 / 100 ≤ e))
    ∧ ((evaluate_feasibility e p o).status = "NO_GO" ↔
        (¬(15 / 100 ≤ e ∧ p ≤ 60 / 100 ∧ o ≤ 12 / 100) ∧ ¬(10 / 100 ≤ e)))
    ∧ (evaluate_feasibility e p o).reasons =
        [ebitda_reason e, prime_reason p, occupancy_reason o]
    ∧ (evaluate_feasibility e p o).reasons.length = 3 := by
  refine ⟨?_, ?_, ?_, rfl, rfl⟩ <;>
    simp only [evaluate_feasibility] <;>
    split_ifs with h1 h2 <;>
    simp_all

/-- C1 (amended): the monthly and annual break-even revenues and the curve are
defined exactly when `contribution_margin > 0` and `fixed_costs_month > 0`;
the break-even orders per day additionally require a defined positive blended
ticket and positive open days; when defined the product identity and the ×12
annualization hold; when the guard fails every break-even output is the
explicit `none` marker. -/
theorem c1_break_even_definedness (i : FinInputs) :
    (break_even_revenue_month i ≠ none ↔
        (0 < contribution_margin i ∧ 0 < fixed_costs_month i))
    ∧ (break_even_revenue_annual i ≠ none ↔
        (0 < contribution_margin i ∧ 0 < fixed_costs_month i))
    ∧ (break_even_curve i ≠ none ↔
        (0 < contribution_margin i ∧ 0 < fixed_costs_month i))
    ∧ (break_even_orders_day i ≠ none ↔
        ((0 < contribution_margin i ∧ 0 < fixed_costs_month i) ∧
          (∃ bt, blended_ticket i = some bt ∧ 0 < bt) ∧ 0 < i.open_days_per_month))
    ∧ (0 < contribution_margin i → 0 < fixed_costs_month i →
        break_even_revenue_month i = some (fixed_costs_month i / contribution_margin i)
        ∧ fixed_costs_month i / contribution_margin i * contribution_margin i =
            fixed_costs_month i
        ∧ break_even_revenue_annual i =
            some (fixed_costs_month i / contribution_margin i * 12))
    ∧ (¬(0 < contribution_margin i ∧ 0 < fixed_costs_month i) →
        break_even_revenue_month i = none ∧ break_even_revenue_annual i = none
        ∧ break_even_curve i = none ∧ break_even_orders_day i = none) := by
  have hmonth : break_even_revenue_month i ≠ none ↔
      (0 < contribution_margin i ∧ 0 < fixed_costs_month i) := by
    unfold break_even_revenue_month
    split_ifs with hc <;> simp [hc]
  refine ⟨hmonth, ?_, ?_, ?_, ?_, ?_⟩
  · unfold break_even_revenue_annual
    rw [← hmonth]
    rcases break_even_revenue_month i with _ | r <;> simp
  · unfold break_even_curve
    split_ifs with hc <;> simp [hc]
  · constructor
    · intro hne
      unfold break_even_orders_day at hne
      rcases hb : break_even_revenue_month i with _ | bem <;> rw [hb] at hne
      · simp at hne
      · rcases ht : blended_ticket i with _ | bt <;> rw [ht] at hne
        · simp at hne
        · simp only at hne
          split_ifs at hne with hcond
          · exact ⟨hmonth.mp (by rw [hb]; simp), ⟨bt, rfl, hcond.1⟩, hcond.2⟩
          · simp at hne
    · rintro ⟨hdef, ⟨bt, ht, hbt⟩, hod⟩
      have hb := hmonth.mpr hdef
      rcases hbm : break_even_revenue_month i with _ | bem
      · rw [hbm] at hb; simp at hb
      · unfold break_even_orders_day
        rw [hbm, ht]
        simp [hbt, hod]
  · intro hc hf
    have hb : break_even_revenue_month i =
        some (fixed_costs_month i / contribution_margin i) := by
      unfold break_even_revenue_month
      rw [if_pos ⟨hc, hf⟩]
    exact ⟨hb, div_mul_cancel₀ _ (ne_of_gt hc),
      by unfold break_even_revenue_annual; rw [hb]; rfl⟩
  · intro hn
    have hb : break_even_revenue_month i = none := by
      unfold break_even_revenue_month
      rw [if_neg hn]
    refine ⟨hb, by unfold break_even_revenue_annual; rw [hb]; rfl, ?_, ?_⟩
    · unfold break_even_curve
      rw [if_neg hn]
    · unfold break_even_orders_day
      rw [hb]

/-- C1 counterexample: with no segments and rent 100 the break-even guard
holds (`contribution_margin = 1 > 0`, `fixed_costs_month = 100 > 0`) and the
break-even revenue is defined, yet `break_even_orders_day` is `none` — so the
claimed "all four outputs defined iff the guard holds" fails. -/
theorem c1_counterexample :
    0 < contribution_margin ce1_input ∧ 0 < fixed_costs_month ce1_input ∧
      break_even_revenue_month ce1_input ≠ none ∧
      break_even_orders_day ce1_input = none := by
  have hcm : contribution_margin ce1_input = 1 := by
    norm_num [contribution_margin, variable_rate, ce1_input, base_input, line_is_variable]
  have hfm : fixed_costs_month ce1_input = 100 := by
    norm_num [fixed_costs_month, fixed_month_extra, occupancy_month, ce1_input, base_input,
      line_is_variable]
  have hmm : break_even_revenue_month ce1_input = some 100 := by
    norm_num [break_even_revenue_month, hcm, hfm]
  have hbt : blended_ticket ce1_input = none := by
    norm_num [blended_ticket, orders_day, ce1_input, base_input]
  refine ⟨by rw [hcm]; norm_num, by rw [hfm]; norm_num, by rw [hmm]; simp, ?_⟩
  unfold break_even_orders_day
  rw [hmm, hbt]

/-- C1 witness: the amended theorem applied to the rent-only input, where the
guard holds concretely and the break-even revenue is the fixed costs over the
contribution margin. -/
theorem c1_witness :
    0 < contribution_margin ce1_input ∧ 0 < fixed_costs_month ce1_input ∧
      break_even_revenue_month ce1_input =
        some (fixed_costs_month ce1_input / contribution_margin ce1_input) := by
  have hcm : (0 : ℚ) < contribution_margin ce1_input := by
    norm_num [contribution_margin, variable_rate, ce1_input, base_input, line_is_variable]
  have hfm : (0 : ℚ) < fixed_costs_month ce1_input := by
    norm_num [fixed_costs_month, fixed_month_extra, occupancy_month, ce1_input, base_input,
      line_is_variable]
  exact ⟨hcm, hfm, ((c1_break_even_definedness ce1_input).2.2.2.2.1 hcm hfm).1⟩

theorem line_not_variable_of_eur {mode : String}
    (h : str_lower (or_default mode) = "eur") : line_is_variable mode = false := by
  simp [line_is_variable, h]

theorem annual_cost_y1_of_eur {mode : String}
    (h : str_lower (or_default mode) = "eur") (pct eur y1 : ℚ) :
    annual_cost_y1 mode pct eur y1 = max 0 eur * 12 := by
  simp [annual_cost_y1, line_not_variable_of_eur h]

/-- C4 (amended): for every seasonality profile, a fixed-mode (`"eur"`) cost
line's Y1 annual amount is `max(0, fixedMonthly) × 12` — hence exactly
`fixedMonthly × 12`, its run-rate annual amount, whenever `fixedMonthly ≥ 0` —
and occupancy always stays at `occupancy_month × 12`; none of these depend on
quarter weights, ramp-up months or the ramp-up floor. -/
theorem c4_fixed_lines_flat_in_y1 (i : FinInputs) (qw : Option (List ℚ))
    (rum : ℤ) (rf : ℚ) :
    (∀ mode pct eur y1rev, str_lower (or_default mode) = "eur" →
        annual_cost_y1 mode pct eur y1rev = max 0 eur * 12
        ∧ (0 ≤ eur → annual_cost_y1 mode pct eur y1rev = eur * 12))
    ∧ (str_lower (or_default i.cogs_mode) = "eur" →
        cogs_annual_y1
            { i with quarter_weights := qw, ramp_up_months := rum, ramp_up_floor := rf } =
          max 0 i.cogs_eur * 12
        ∧ (0 ≤ i.cogs_eur →
            cogs_annual_y1
                { i with quarter_weights := qw, ramp_up_months := rum, ramp_up_floor := rf } =
              cogs_annual i))
    ∧ (str_lower (or_default i.labor_mode) = "eur" →
        labor_annual_y1
            { i with quarter_weights := qw, ramp_up_months := rum, ramp_up_floor := rf } =
          max 0 i.labor_eur * 12
        ∧ (0 ≤ i.labor_eur →
            labor_annual_y1
                { i with quarter_weights := qw, ramp_up_months := rum, ramp_up_floor := rf } =
              labor_annual i))
    ∧ (str_lower (or_default i.opex_mode) = "eur" →
        opex_annual_y1
            { i with quarter_weights := qw, ramp_up_months := rum, ramp_up_floor := rf } =
          max 0 i.opex_eur * 12
        ∧ (0 ≤ i.opex_eur →
            opex_annual_y1
                { i with quarter_weights := qw, ramp_up_months := rum, ramp_up_floor := rf } =
              opex_annual i))
    ∧ (str_lower (or_default i.marketing_mode) = "eur" →
        marketing_annual_y1
            { i with quarter_weights := qw, ramp_up_months := rum, ramp_up_floor := rf } =
          max 0 i.marketing_eur * 12
        ∧ (0 ≤ i.marketing_eur →
            marketing_annual_y1
                { i with quarter_weights := qw, ramp_up_months := rum, ramp_up_floor := rf } =
              marketing_annual i))
    ∧ (str_lower (or_default i.fee_mode) = "eur" →
        fee_annual_y1
            { i with quarter_weights := qw, ramp_up_months := rum, ramp_up_floor := rf } =
          max 0 i.fee_eur * 12
        ∧ (0 ≤ i.fee_eur →
            fee_annual_y1
                { i with quarter_weights := qw, ramp_up_months := rum, ramp_up_floor := rf } =
              fee_annual i))
    ∧ occupancy_annual_y1
          { i with quarter_weights := qw, ramp_up_months := rum, ramp_up_floor := rf } =
        occupancy_month i * 12
    ∧ occupancy_annual_y1 i = occupancy_annual i := by
  have key : ∀ mode pct eur y1rev, str_lower (or_default mode) = "eur" →
      annual_cost_y1 mode pct eur y1rev = max 0 eur * 12
      ∧ (0 ≤ eur → annual_cost_y1 mode pct eur y1rev = eur * 12) := by
    intro mode pct eur y1rev h
    refine ⟨annual_cost_y1_of_eur h pct eur y1rev, fun heur => ?_⟩
    rw [annual_cost_y1_of_eur h pct eur y1rev, max_eq_right heur]
  refine ⟨key, fun h => ?_, fun h => ?_, fun h => ?_, fun h => ?_, fun h => ?_, rfl, rfl⟩
  · have hk := key i.cogs_mode i.cogs_pct i.cogs_eur
      (revenue_annual_y1
        { i with quarter_weights := qw, ramp_up_months := rum, ramp_up_floor := rf }) h
    exact ⟨hk.1, fun heur => by
      rw [cogs_annual_y1, hk.2 heur]
      unfold cogs_annual cogs_month
      rw [cost_amount_of_eur h]⟩
  · have hk := key i.labor_mode i.labor_pct i.labor_eur
      (revenue_annual_y1
        { i with quarter_weights := qw, ramp_up_months := rum, ramp_up_floor := rf }) h
    exact ⟨hk.1, fun heur => by
      rw [labor_annual_y1, hk.2 heur]
      unfold labor_annual labor_month
      rw [cost_amount_of_eur h]⟩
  · have hk := key i.opex_mode i.opex_pct i.opex_eur
      (revenue_annual_y1
        { i with quarter_weights := qw, ramp_up_months := rum, ramp_up_floor := rf }) h
    exact ⟨hk.1, fun heur => by
      rw [opex_annual_y1, hk.2 heur]
      unfold opex_annual opex_month
      rw [cost_amount_of_eur h]⟩
  · have hk := key i.marketing_mode i.marketing_pct i.marketing_eur
      (revenue_annual_y1
        { i with quarter_weights := qw, ramp_up_months := rum, ramp_up_floor := rf }) h
    exact ⟨hk.1, fun heur => by
      rw [marketing_annual_y1, hk.2 heur]
      unfold marketing_annual marketing_month
      rw [cost_amount_of_eur h]⟩
  · have hk := key i.fee_mode i.fee_pct i.fee_eur
      (revenue_annual_y1
        { i with quarter_weights := qw, ramp_up_months := rum, ramp_up_floor := rf }) h
    exact ⟨hk.1, fun heur => by
      rw [fee_annual_y1, hk.2 heur]
      unfold fee_annual fee_month
      rw [cost_amount_of_eur h]⟩

/-- C4 counterexample: a fixed-mode COGS line of −5 per month has Y1 annual
amount 0, not `fixedMonthly × 12 = −60`, so the claim fails as stated for
negative fixed amounts. -/
theorem c4_counterexample :
    ce4_input.cogs_mode = "eur" ∧ ce4_input.cogs_eur = -5 ∧
      cogs_annual_y1 ce4_input = 0 ∧ ce4_input.cogs_eur * 12 = -60 ∧
      cogs_annual_y1 ce4_input ≠ ce4_input.cogs_eur * 12 := by
  have hy1 : cogs_annual_y1 ce4_input = 0 := by
    rw [cogs_annual_y1,
      annual_cost_y1_of_eur (by decide) _ _ (revenue_annual_y1 ce4_input)]
    norm_num [ce4_input, base_input, max_eq_left]
  refine ⟨rfl, rfl, hy1, by norm_num [ce4_input, base_input], ?_⟩
  rw [hy1]
  norm_num [ce4_input, base_input]

/-- C4 witness: the amended theorem applied to a fixed-mode COGS line of 500
per month, whose Y1 annual amount equals its run-rate annual amount. -/
theorem c4_witness :
    cogs_annual_y1 w4_input = cogs_annual w4_input := by
  have h := (c4_fixed_lines_flat_in_y1 w4_input none 0 (65 / 100)).2.1
    (by decide) |>.2 (by norm_num [w4_input, base_input])
  exact h

/-- C5: for clamped ramp parameters the per-month factors are the linear
interpolation from the floor at month 0 to 1 at month `rum − 1` (with the
single-month special case equal to 1), are monotonically non-decreasing over
the ramp months, equal 1 from month `rum` on, and the engine's `factors`
array is exactly this function on months 0–11 with parameters that always
satisfy the clamping bounds. -/
theorem c5_ramp_factors (rum : ℕ) (fl : ℚ) (hrum : rum ≤ 12) (h0 : 0 ≤ fl)
    (h1 : fl ≤ 1) :
    (∀ m, rum ≤ m → ramp_factor rum fl m = 1)
    ∧ (rum = 1 → ramp_factor rum fl 0 = 1)
    ∧ (2 ≤ rum →
        (∀ m, m < rum →
          ramp_factor rum fl m = fl + (1 - fl) * ((m : ℚ) / ((rum : ℚ) - 1)))
        ∧ ramp_factor rum fl 0 = fl
        ∧ ramp_factor rum fl (rum - 1) = 1)
    ∧ (∀ m1 m2, m1 ≤ m2 → m2 < rum → ramp_factor rum fl m1 ≤ ramp_factor rum fl m2)
    ∧ (∀ i : FinInputs,
        factors i =
          (List.range 12).map
            (ramp_factor (ramp_up_months_clamped i) (ramp_up_floor_clamped i))
        ∧ ramp_up_months_clamped i ≤ 12
        ∧ 0 ≤ ramp_up_floor_clamped i ∧ ramp_up_floor_clamped i ≤ 1) := by
  have hform : 2 ≤ rum → ∀ m, m < rum →
      ramp_factor rum fl m = fl + (1 - fl) * ((m : ℚ) / ((rum : ℚ) - 1)) := by
    intro h2 m hm
    unfold ramp_factor
    rw [if_pos hm, if_neg (by omega)]
  have hden : 2 ≤ rum → (0 : ℚ) < (rum : ℚ) - 1 := by
    intro h2
    have : (2 : ℚ) ≤ (rum : ℚ) := by exact_mod_cast h2
    linarith
  refine ⟨?_, ?_, fun h2 => ⟨hform h2, ?_, ?_⟩, ?_, ?_⟩
  · intro m hm
    unfold ramp_factor
    rw [if_neg (by omega)]
  · intro hone
    unfold ramp_factor
    rw [if_pos (by omega), if_pos hone]
  · rw [hform h2 0 (by omega)]
    norm_num
  · rw [hform h2 (rum - 1) (by omega)]
    have hcast : ((rum - 1 : ℕ) : ℚ) = (rum : ℚ) - 1 := by
      have : (1 : ℕ) ≤ rum := by omega
      push_cast [Nat.cast_sub this]
      ring
    rw [hcast, div_self (ne_of_gt (hden h2))]
    ring
  · intro m1 m2 h12 h2r
    have hm1 : m1 < rum := by omega
    by_cases hone : rum = 1
    · unfold ramp_factor
      rw [if_pos hm1, if_pos h2r, if_pos hone, if_pos hone]
    · have h2 : 2 ≤ rum := by omega
      rw [hform h2 m1 hm1, hform h2 m2 h2r]
      have hmc : (m1 : ℚ) ≤ (m2 : ℚ) := by exact_mod_cast h12
      have hdl := hden h2
      apply add_le_add_left
      apply mul_le_mul_of_nonneg_left _ (by linarith : (0 : ℚ) ≤ 1 - fl)
      exact (div_le_div_iff_of_pos_right hdl).mpr hmc
  · intro i
    refine ⟨rfl, ?_, le_max_left _ _, ?_⟩
    · unfold ramp_up_months_clamped
      omega
    · unfold ramp_up_floor_clamped
      exact max_le (by norm_num) (min_le_left _ _)

/-- C5 witness: the ramp theorem applied at `rum = 3`, floor `1/2`: month 0 is
at the floor, month 1 at `3/4`, and month 5 (past the ramp) at 1. -/
theorem c5_witness :
    ramp_factor 3 (1 / 2) 0 = 1 / 2 ∧ ramp_factor 3 (1 / 2) 5 = 1 ∧
      ramp_factor 3 (1 / 2) 0 ≤ ramp_factor 3 (1 / 2) 2 := by
  have h := c5_ramp_factors 3 (1 / 2) (by norm_num) (by norm_num) (by norm_num)
  exact ⟨(h.2.2.1 (by norm_num)).2.1, h.1 5 (by norm_num),
    h.2.2.2.1 0 2 (by norm_num) (by norm_num)⟩

/-- C6: ROI is defined exactly when cash invested is positive and equals
annual EBITDA over cash invested; payback is defined exactly when cash
invested and monthly EBITDA are both positive, equals their quotient, and is
always strictly positive when defined; the Y1 variants obey the same rule
with Y1 figures (monthly Y1 EBITDA being `ebitda_annual_y1 / 12`). -/
theorem c6_roi_payback (i : FinInputs) :
    ((roi_annual i ≠ none) ↔ 0 < cash_invested i)
    ∧ (0 < cash_invested i → roi_annual i = some (ebitda_annual i / cash_invested i))
    ∧ ((payback_months i ≠ none) ↔ (0 < cash_invested i ∧ 0 < ebitda_month i))
    ∧ (0 < cash_invested i → 0 < ebitda_month i →
        payback_months i = some (cash_invested i / ebitda_month i))
    ∧ (∀ p, payback_months i = some p → 0 < p)
    ∧ ((roi_annual_y1 i ≠ none) ↔ 0 < cash_invested i)
    ∧ (0 < cash_invested i →
        roi_annual_y1 i = some (ebitda_annual_y1 i / cash_invested i))
    ∧ ((payback_months_y1 i ≠ none) ↔ (0 < cash_invested i ∧ 0 < ebitda_annual_y1 i))
    ∧ (0 < cash_invested i → 0 < ebitda_annual_y1 i →
        payback_months_y1 i = some (cash_invested i / (ebitda_annual_y1 i / 12)))
    ∧ (∀ p, payback_months_y1 i = some p → 0 < p) := by
  refine ⟨?_, ?_, ?_, ?_, ?_, ?_, ?_, ?_, ?_, ?_⟩
  · unfold roi_annual
    split_ifs with h <;> simp [h]
  · intro h
    unfold roi_annual
    rw [if_pos h]
  · unfold payback_months
    split_ifs with h <;> simp [h]
  · intro h1 h2
    unfold payback_months
    rw [if_pos ⟨h1, h2⟩]
  · intro p hp
    unfold payback_months at hp
    split_ifs at hp with h
    rw [Option.some_inj] at hp
    subst hp
    exact div_pos h.1 h.2
  · unfold roi_annual_y1
    split_ifs with h <;> simp [h]
  · intro h
    unfold roi_annual_y1
    rw [if_pos h]
  · unfold payback_months_y1
    split_ifs with h <;> simp [h]
  · intro h1 h2
    unfold payback_months_y1
    rw [if_pos ⟨h1, h2⟩]
  · intro p hp
    unfold payback_months_y1 at hp
    split_ifs at hp with h
    rw [Option.some_inj] at hp
    subst hp
    exact div_pos h.1 (div_pos h.2 (by norm_num))

/-- C6 witness: on one standard segment with 100 invested, cash invested and
monthly EBITDA are positive and the payback is their quotient. -/
theorem c6_witness :
    0 < cash_invested w6_input ∧ 0 < ebitda_month w6_input ∧
      payback_months w6_input =
        some (cash_invested w6_input / ebitda_month w6_input) := by
  have hc : (0 : ℚ) < cash_invested w6_input := by
    norm_num [cash_invested, w6_input, base_input]
  have he : (0 : ℚ) < ebitda_month w6_input := by
    norm_num [ebitda_month, revenue_month, revenue_day, cogs_month, labor_month, opex_month,
      marketing_month, fee_month, occupancy_month, cost_amount, or_default, str_lower,
      w6_input, base_input, dp_std]
  exact ⟨hc, he, (c6_roi_payback w6_input).2.2.2.1 hc he⟩

/-- C7: with zero annual run-rate revenue every percent-derived ratio reports
0 (a plain number, not an undefined marker); and the break-even quantities
(variable rate, fixed monthly costs, break-even revenue) do not depend on the
segment list at all. -/
theorem c7_zero_revenue_ratios_and_independence (i : FinInputs)
    (d1 d2 : List DaypartInput) :
    (revenue_annual_runrate i = 0 →
        ebitda_pct_annual i = 0 ∧ prime_cost_pct i = 0 ∧ occupancy_pct i = 0 ∧
          controllable_costs_pct i = 0)
    ∧ variable_rate { i with dayparts := d1 } = variable_rate { i with dayparts := d2 }
    ∧ fixed_costs_month { i with dayparts := d1 } =
        fixed_costs_month { i with dayparts := d2 }
    ∧ contribution_margin { i with dayparts := d1 } =
        contribution_margin { i with dayparts := d2 }
    ∧ break_even_revenue_month { i with dayparts := d1 } =
        break_even_revenue_month { i with dayparts := d2 } := by
  refine ⟨fun h => ?_, rfl, rfl, rfl, rfl⟩
  simp [ebitda_pct_annual, prime_cost_pct, occupancy_pct, controllable_costs_pct, h]

/-- C7 witness: the zero-revenue branch applied to the empty-segment input. -/
theorem c7_witness :
    revenue_annual_runrate base_input = 0 ∧ prime_cost_pct base_input = 0 := by
  have h0 : revenue_annual_runrate base_input = 0 := by
    norm_num [revenue_annual_runrate, revenue_month, revenue_day, base_input]
  exact ⟨h0,
    ((c7_zero_revenue_ratios_and_independence base_input [] []).1 h0).2.1⟩

/-- C8: for parseable time pairs the duration is end minus start with 24h
added on overnight spans and a zero span rejected; any produced duration is
strictly positive; `total_hours` is the sum of the valid durations (the
strict-positivity filter never drops a produced duration); the per-hour rates
are defined with the stated values exactly when `total_hours > 0`; and a
segment without a valid time pair contributes nothing to the total hours
while still contributing its clamped revenue. -/
theorem c8_hourly_analytics (i : FinInputs) :
    (∀ s e sh sm eh em, parse_hhmm s = some (sh, sm) → parse_hhmm e = some (eh, em) →
        (((sh : ℤ) * 60 + sm < (eh : ℤ) * 60 + em) →
          hours_between (some s) (some e) =
            some ((((eh : ℤ) * 60 + em - ((sh : ℤ) * 60 + sm) : ℤ) : ℚ) / 60))
        ∧ (((eh : ℤ) * 60 + em < (sh : ℤ) * 60 + sm) →
          hours_between (some s) (some e) =
            some ((((eh : ℤ) * 60 + em + 24 * 60 - ((sh : ℤ) * 60 + sm) : ℤ) : ℚ) / 60))
        ∧ (((eh : ℤ) * 60 + em = (sh : ℤ) * 60 + sm) →
          hours_between (some s) (some e) = none))
    ∧ (∀ os oe h, hours_between os oe = some h → 0 < h)
    ∧ total_hours i = (valid_hours i.dayparts).sum
    ∧ valid_hours i.dayparts = i.dayparts.filterMap daypart_hours
    ∧ (0 < total_hours i →
        orders_per_hour i = some (orders_day i / total_hours i)
        ∧ revenue_per_hour i = some (revenue_day i / total_hours i))
    ∧ (¬0 < total_hours i → orders_per_hour i = none ∧ revenue_per_hour i = none)
    ∧ (∀ dp, daypart_hours dp = none →
        total_hours { i with dayparts := dp :: i.dayparts } = total_hours i
        ∧ revenue_day { i with dayparts := dp :: i.dayparts } =
            max 0 dp.orders_per_day * max 0 dp.ticket_avg + revenue_day i) := by
  have hvalid : ∀ dps : List DaypartInput,
      valid_hours dps = dps.filterMap daypart_hours := by
    intro dps
    induction dps with
    | nil => rfl
    | cons dp t ih =>
      unfold valid_hours at ih ⊢
      rw [List.filterMap_cons, List.filterMap_cons]
      cases hdp : daypart_hours dp with
      | none => simp only [hdp, ih]
      | some h => simp only [hdp, if_pos (daypart_hours_pos hdp), ih]
  refine ⟨?_, fun os oe h hsome => hours_between_pos hsome, rfl, hvalid i.dayparts,
    fun h => ?_, fun h => ?_, fun dp hdp => ⟨?_, ?_⟩⟩
  · intro s e sh sm eh em hs he
    refine ⟨fun hlt => ?_, fun hgt => ?_, fun heq => ?_⟩ <;>
      simp only [hours_between, hs, he] <;>
      split_ifs <;>
      first
        | rfl
        | omega
  · unfold orders_per_hour revenue_per_hour hours_day_total
    rw [if_pos h]
    exact ⟨rfl, rfl⟩
  · unfold orders_per_hour revenue_per_hour hours_day_total
    rw [if_neg h]
    exact ⟨rfl, rfl⟩
  · unfold total_hours
    show (valid_hours (dp :: i.dayparts)).sum = (valid_hours i.dayparts).sum
    unfold valid_hours
    rw [List.filterMap_cons]
    simp only [hdp]
  · show (((dp :: i.dayparts).map fun d => max 0 d.orders_per_day * max 0 d.ticket_avg).sum
        : ℚ) = _
    rw [List.map_cons, List.sum_cons]
    rfl

/-- C8 witness: the theorem applied to the 18:00–23:00 segment input — the
span is 5 hours and the per-hour rates are defined. -/
theorem c8_witness :
    hours_between (some "18:00") (some "23:00") = some 5 ∧
      0 < total_hours w8_input ∧
      orders_per_hour w8_input = some (orders_day w8_input / total_hours w8_input) := by
  have h := c8_hourly_analytics w8_input
  have h5 : hours_between (some "18:00") (some "23:00") = some 5 := by
    have := (h.1 "18:00" "23:00" 18 0 23 0 (by decide) (by decide)).1 (by decide)
    rw [this]
    norm_num
  have hdp : daypart_hours dp_time = some 5 := by
    unfold daypart_hours
    rw [if_pos (by decide)]
    exact h5
  have hth : total_hours w8_input = 5 := by
    unfold total_hours valid_hours
    show ((([dp_time] : List DaypartInput).filterMap _).sum : ℚ) = 5
    rw [List.filterMap_cons]
    simp only [hdp]
    norm_num
  exact ⟨h5, by rw [hth]; norm_num, (h.2.2.2.2.1 (by rw [hth]; norm_num)).1⟩

/-- C9: for a non-empty segment list the staffing shares are revenue shares
when total segment revenue is positive and equal shares `1/n` otherwise; in
both cases they sum to exactly 1, so the allocated labor cost sums to the
chosen base. -/
theorem c9_staffing_shares (dps : List DaypartInput) (od : ℤ) (hne : dps ≠ []) :
    (fte_shares dps od).sum = 1
    ∧ (0 < fte_total_rev dps od →
        fte_shares dps od =
          dps.map fun dp => seg_rev_month od dp / fte_total_rev dps od)
    ∧ (¬0 < fte_total_rev dps od →
        fte_shares dps od = dps.map fun _ => 1 / (dps.length : ℚ))
    ∧ (∀ base : ℚ, (fte_alloc_costs base dps od).sum = base) := by
  have hlen : (dps.length : ℚ) ≠ 0 := by
    have : dps.length ≠ 0 := fun hz => hne (List.length_eq_zero.mp hz)
    exact_mod_cast Nat.cast_ne_zero.mpr this
  have hsum : (fte_shares dps od).sum = 1 := by
    by_cases hT : 0 < fte_total_rev dps od
    · unfold fte_shares fte_share
      simp only [if_pos hT]
      rw [show (dps.map fun dp => seg_rev_month od dp / fte_total_rev dps od) =
          (dps.map (seg_rev_month od)).map fun x => x / fte_total_rev dps od from by
        rw [List.map_map]; rfl]
      rw [sum_map_div]
      exact div_self (ne_of_gt hT)
    · unfold fte_shares fte_share
      simp only [if_neg hT]
      rw [sum_map_const]
      field_simp
  refine ⟨hsum, fun hT => ?_, fun hT => ?_, fun base => ?_⟩
  · unfold fte_shares fte_share
    simp only [if_pos hT]
  · unfold fte_shares fte_share
    simp only [if_neg hT]
  · unfold fte_alloc_costs
    rw [sum_map_mul_left, hsum, mul_one]

/-- C9 witness: the shares of the single standard segment sum to 1 and the
allocation of a base of 60000 sums back to 60000. -/
theorem c9_witness :
    (fte_shares [dp_std] 30).sum = 1 ∧
      (fte_alloc_costs 60000 [dp_std] 30).sum = 60000 := by
  have h := c9_staffing_shares [dp_std] 30 (by simp)
  exact ⟨h.1, h.2.2.2 60000⟩

theorem line_decomp (mode : String) (pct eur rev : ℚ) :
    (if line_is_variable mode then pct else 0) * rev +
        (if line_is_variable mode then 0 else eur) =
      cost_amount rev mode pct eur + line_mismatch mode pct eur rev := by
  cases hv : line_is_variable mode with
  | true =>
    rw [cost_amount_of_not_eur (not_eur_of_variable hv)]
    simp only [line_mismatch, hv]
    norm_num
    ring
  | false =>
    by_cases hf : str_lower (or_default mode) = "eur"
    · rw [cost_amount_of_eur hf]
      simp only [line_mismatch, hv, hf]
      norm_num
    · rw [cost_amount_of_not_eur hf]
      simp only [line_mismatch, hv]
      norm_num
      rw [if_neg hf]
      ring

/-- C10 (amended): the resolver treats a line as fixed exactly when its mode
lowercases to `"eur"` while the break-even loop treats it as variable exactly
when it lowercases to `"pct"`; a non-empty mode lowercasing to neither is
resolved as percent-of-revenue while its `eur` amount is added to break-even
fixed costs; the break-even linear decomposition differs from the resolved
costs plus occupancy by exactly the sum of the per-line mismatch terms (so it
fails to match exactly when that sum is nonzero); and the two classifications
agree exactly when the mode is empty or lowercases to `"pct"` or `"eur"`. -/
theorem c10_mode_classification (mode : String) (pct eur rev : ℚ) (i : FinInputs) :
    (str_lower (or_default mode) = "eur" → cost_amount rev mode pct eur = eur)
    ∧ (str_lower (or_default mode) ≠ "eur" → cost_amount rev mode pct eur = rev * pct)
    ∧ (line_is_variable mode = true ↔ str_lower (or_default mode) = "pct")
    ∧ (mode ≠ "" → str_lower mode ≠ "pct" → str_lower mode ≠ "eur" →
        cost_amount rev mode pct eur = rev * pct
        ∧ line_is_variable mode = false
        ∧ line_mismatch mode pct eur rev = eur - rev * pct)
    ∧ (fixed_costs_month i + variable_rate i * revenue_month i =
        (cogs_month i + labor_month i + opex_month i + marketing_month i + fee_month i +
            occupancy_month i)
          + line_mismatch i.cogs_mode i.cogs_pct i.cogs_eur (revenue_month i)
          + line_mismatch i.labor_mode i.labor_pct i.labor_eur (revenue_month i)
          + line_mismatch i.opex_mode i.opex_pct i.opex_eur (revenue_month i)
          + line_mismatch i.marketing_mode i.marketing_pct i.marketing_eur (revenue_month i)
          + line_mismatch i.fee_mode i.fee_pct i.fee_eur (revenue_month i))
    ∧ ((line_is_variable mode = true ↔ str_lower (or_default mode) ≠ "eur") ↔
        (mode = "" ∨ str_lower mode = "pct" ∨ str_lower mode = "eur")) := by
  refine ⟨fun h => cost_amount_of_eur h rev pct eur,
    fun h => cost_amount_of_not_eur h rev pct eur,
    line_is_variable_iff mode, fun hm h1 h2 => ?_, ?_, ?_⟩
  · have hod : or_default mode = mode := or_default_of_ne hm
    have hvar : line_is_variable mode = false := by
      simp [line_is_variable, hod, h1]
    refine ⟨cost_amount_of_not_eur (by rw [hod]; exact h2) rev pct eur, hvar, ?_⟩
    unfold line_mismatch
    rw [if_pos ⟨hvar, by rw [hod]; exact h2⟩]
  · have h1 := line_decomp i.cogs_mode i.cogs_pct i.cogs_eur (revenue_month i)
    have h2 := line_decomp i.labor_mode i.labor_pct i.labor_eur (revenue_month i)
    have h3 := line_decomp i.opex_mode i.opex_pct i.opex_eur (revenue_month i)
    have h4 := line_decomp i.marketing_mode i.marketing_pct i.marketing_eur (revenue_month i)
    have h5 := line_decomp i.fee_mode i.fee_pct i.fee_eur (revenue_month i)
    unfold fixed_costs_month variable_rate fixed_month_extra cogs_month labor_month
      opex_month marketing_month fee_month
    linear_combination h1 + h2 + h3 + h4 + h5
  · by_cases hm : mode = ""
    · subst hm
      simp only [line_is_variable, or_default]
      decide
    · simp only [line_is_variable, or_default_of_ne hm, beq_iff_eq, hm, false_or]
      by_cases ht1 : str_lower mode = "pct" <;> by_cases ht2 : str_lower mode = "eur" <;>
        simp_all

/-- C10 counterexample: with a `"percent"`-mode COGS line whose percent and
fixed values are both 0, the mode lowercases to neither `"pct"` nor `"eur"`,
yet the break-even decomposition still equals the resolved costs plus
occupancy — refuting the claim that the decomposition "no longer matches" for
every such line. -/
theorem c10_counterexample :
    ce10_input.cogs_mode ≠ "" ∧ str_lower ce10_input.cogs_mode ≠ "pct" ∧
      str_lower ce10_input.cogs_mode ≠ "eur" ∧
      fixed_costs_month ce10_input + variable_rate ce10_input * revenue_month ce10_input =
        cogs_month ce10_input + labor_month ce10_input + opex_month ce10_input +
          marketing_month ce10_input + fee_month ce10_input + occupancy_month ce10_input := by
  have hvp : line_is_variable "percent" = false := by decide
  have hvq : line_is_variable "pct" = true := by decide
  have hep : str_lower (or_default "percent") ≠ "eur" := by decide
  have heq' : str_lower (or_default "pct") ≠ "eur" := by decide
  refine ⟨by decide, by decide, by decide, ?_⟩
  norm_num [fixed_costs_month, variable_rate, fixed_month_extra, occupancy_month,
    cogs_month, labor_month, opex_month, marketing_month, fee_month, cost_amount,
    revenue_month, revenue_day, ce10_input, base_input, hvp, hvq, hep, heq']

/-- C10 witness: the amended theorem applied to the mode string `"percent"`
with percent 3/10, fixed amount 7 and revenue 100: resolved as percent, fixed
for break-even, with mismatch `7 − 30`. -/
theorem c10_witness :
    cost_amount 100 "percent" (3 / 10) 7 = 100 * (3 / 10) ∧
      line_is_variable "percent" = false ∧
      line_mismatch "percent" (3 / 10) 7 100 = 7 - 100 * (3 / 10) := by
  exact (c10_mode_classification "percent" (3 / 10) 7 100 base_input).2.2.2.1
    (by decide) (by decide) (by decide)

end StorePilot
